import Mathlib

/-!
Verification of the conversation-orchestration core of the AI real-time
translator (`src/index.tsx`).

The source is a single React component.  Its orchestration logic is a set of
event handlers over component state; under React's single-threaded event loop
every handler invocation runs to completion before the next one, so the code
is embedded as a state machine: a state record `AppState`, one Lean function
per source handler, and a `step` function dispatching environment events
(user toggles, recognition results, recognition errors, session ends,
translation resolutions) to the handlers.  Asynchronous translation
completions appear as separate `resolve` events carrying the data the source
closure captured at request-creation time (the entry id and the mode).
`Date.now()` reads are modelled as a `Nat` supplied by the environment with
each event that performs such a read.
-/

namespace RTTrans

/-- The two representable languages, `'ja-JP' | 'zh-TW'` (src/index.tsx:41). -/
inductive Language where
  | jaJP
  | zhTW
deriving DecidableEq, Repr

/-- The language flip `prevLang === 'ja-JP' ? 'zh-TW' : 'ja-JP'`
(src/index.tsx:195 and 375). -/
def Language.toggle : Language → Language
  | .jaJP => .zhTW
  | .zhTW => .jaJP

/-- Operating modes `'turn-taking' | 'continuous'` (src/index.tsx:42). -/
inductive Mode where
  | turnTaking
  | continuous
deriving DecidableEq, Repr

/-- The mode flip `m === 'turn-taking' ? 'continuous' : 'turn-taking'`
(src/index.tsx:413). -/
def Mode.flip : Mode → Mode
  | .turnTaking => .continuous
  | .continuous => .turnTaking

/-- A transcript entry (src/index.tsx:44-49).  `id` is the `Date.now()`
value read at creation; `translated = none` is the pending state rendered
as `...`. -/
structure LogEntry where
  id : Nat
  original : String
  translated : Option String
  lang : Language
deriving DecidableEq, Repr

/-- JavaScript `String.prototype.trim`, as called on the final transcript
(src/index.tsx:117): strip whitespace from both ends. -/
def trimChars (l : List Char) : List Char :=
  ((l.dropWhile Char.isWhitespace).reverse.dropWhile Char.isWhitespace).reverse

/-- JavaScript `String.prototype.trim` lifted to `String`. -/
def jsTrim (s : String) : String :=
  ⟨trimChars s.data⟩

/-- The component state the orchestration handlers read and write:
React state hooks and mutable refs of src/index.tsx:60-75, plus two ghost
counters (`acquires`, `releases`) that count successful `getUserMedia`
acquisitions and microphone-track releases for the resource-balance
property. -/
structure AppState where
  /-- `isListening` state hook (src/index.tsx:60). -/
  isListening : Bool
  /-- `currentLang` state hook (src/index.tsx:61). -/
  currentLang : Language
  /-- `mode` state hook (src/index.tsx:62). -/
  mode : Mode
  /-- `log` state hook (src/index.tsx:63). -/
  log : List LogEntry
  /-- `error` state hook (src/index.tsx:65); `none` is no banner. -/
  error : Option String
  /-- Number of entries of the `recordings` state hook (src/index.tsx:67);
  the claims only count finalized Recordings. -/
  recordings : Nat
  /-- `intentionalStop` ref (src/index.tsx:71). -/
  intentionalStop : Bool
  /-- Whether `mediaRecorderRef.current.state === "recording"`
  (src/index.tsx:72, 266). -/
  recorderRecording : Bool
  /-- Whether `streamRef.current` is non-null (src/index.tsx:74). -/
  streamLive : Bool
  /-- `recognition.lang` (src/index.tsx:251), set at session start. -/
  recognitionLang : Language
  /-- Ghost: count of successful `getUserMedia` acquisitions
  (src/index.tsx:212). -/
  acquires : Nat
  /-- Ghost: count of releases of the current stream's tracks
  (src/index.tsx:244 and the unmount cleanup at 94). -/
  releases : Nat
deriving DecidableEq, Repr

/-- The initial component state: hooks start as
`false / 'ja-JP' / 'turn-taking' / [] / null / []`, `intentionalStop`
starts `false`, no recorder or stream exists (src/index.tsx:60-75). -/
def initialState : AppState where
  isListening := false
  currentLang := .jaJP
  mode := .turnTaking
  log := []
  error := none
  recordings := 0
  intentionalStop := false
  recorderRecording := false
  streamLive := false
  recognitionLang := .jaJP
  acquires := 0
  releases := 0

/-- `stopListeningAndRecording` (src/index.tsx:262-271) together with the
`mediaRecorder.onstop` continuation it triggers (src/index.tsx:222-247):
if the recorder is in the `"recording"` state it is stopped, whereupon
`onstop` materializes one Recording, stops the current stream's tracks and
nulls `streamRef`; then `isListening` is set `false` and the
`intentionalStop` ref is reset to `false`.  `recognition.stop()` itself
only asks the engine to emit a later `end` event and changes no component
state. -/
def stopListeningAndRecording (s : AppState) : AppState :=
  let s1 :=
    if s.recorderRecording then
      { s with recorderRecording := false
               recordings := s.recordings + 1
               releases := if s.streamLive then s.releases + 1 else s.releases
               streamLive := false }
    else s
  { s1 with isListening := false, intentionalStop := false }

/-- Environment outcome of one `startListeningAndRecording` call: the
`getUserMedia` promise may reject, and after a successful acquisition the
rest of the `try` block (`new MediaRecorder`, `recognition.start()`) may
still throw into the `catch`. -/
inductive StartOutcome where
  | micDenied
  | recognitionStartFailed
  | ok
deriving DecidableEq, Repr

/-- `startListeningAndRecording` (src/index.tsx:209-260).
On `micDenied` the `catch` only sets the error banner.  On
`recognitionStartFailed` the stream was acquired (src/index.tsx:212-213)
and the recorder started (215-249), `intentionalStop` was cleared and
`recognition.lang` assigned (250-251), then `recognition.start()` threw:
the `catch` sets the error banner and releases nothing, and
`setIsListening(true)` never runs.  On `ok` the whole `try` block runs. -/
def startListeningAndRecording (s : AppState) : StartOutcome → AppState
  | .micDenied => { s with error := some "Could not start microphone" }
  | .recognitionStartFailed =>
      { s with acquires := s.acquires + 1
               streamLive := true
               recorderRecording := true
               intentionalStop := false
               recognitionLang := s.currentLang
               error := some "Could not start microphone" }
  | .ok =>
      { s with acquires := s.acquires + 1
               streamLive := true
               recorderRecording := true
               intentionalStop := false
               recognitionLang := s.currentLang
               isListening := true
               error := none }

/-- The synchronous part of `handleTranslation` (src/index.tsx:163-175):
guard `if (!text || !ai.current) return;`, then append a pending entry with
`id: Date.now()` and the current language.  `ready` is whether `ai.current`
is set (the API key was present). -/
def handleTranslationCreate (now : Nat) (ready : Bool) (text : String)
    (s : AppState) : AppState :=
  if text = "" ∨ ready = false then s
  else
    { s with log := s.log ++
        [{ id := now, original := text, translated := none,
           lang := s.currentLang }] }

/-- The final-transcript branch of `handleResult` (src/index.tsx:103-119):
when the accumulated final transcript is non-empty, call
`handleTranslation(finalTranscript.trim())`. -/
def handleResultFinal (now : Nat) (ready : Bool) (finalTranscript : String)
    (s : AppState) : AppState :=
  if finalTranscript = "" then s
  else handleTranslationCreate now ready (jsTrim finalTranscript) s

/-- The translation requests issued by one `handleResult` final transcript:
the `await ai.current.models.generateContent` call (src/index.tsx:183-186)
runs exactly when the entry-creation guard passes, and is tagged here by
the id of the entry it was issued for. -/
def translationRequests (now : Nat) (ready : Bool) (finalTranscript : String) :
    List Nat :=
  if finalTranscript = "" then []
  else if jsTrim finalTranscript = "" ∨ ready = false then []
  else [now]

/-- The continuation of `handleTranslation` after the translation promise
settles (src/index.tsx:188-206).  `entryId` and `modeAtCreation` are the
values of `newEntry.id` and `mode` captured by the closure when the request
was made.  On success (`outcome = some tr`) every log entry whose id equals
`entryId` gets `translated := tr`, and in turn-taking mode `currentLang` is
toggled through the functional updater; on failure (`outcome = none`) the
error banner is set to `"Failed to translate text."` and matching entries
get the `"Translation failed."` placeholder, with no language toggle. -/
def handleTranslationResolve (entryId : Nat) (modeAtCreation : Mode)
    (outcome : Option String) (s : AppState) : AppState :=
  match outcome with
  | some tr =>
      let s1 := { s with log := s.log.map fun e =>
        if e.id = entryId then { e with translated := some tr } else e }
      if modeAtCreation = Mode.turnTaking then
        { s1 with currentLang := s1.currentLang.toggle }
      else s1
  | none =>
      { s with
          error := some "Failed to translate text."
          log := s.log.map fun e =>
            if e.id = entryId then { e with translated := some "Translation failed." }
            else e }

/-- `handleError` (src/index.tsx:121-128): `"no-speech"` errors return
immediately; any other kind sets the error banner
`"Speech recognition error: " ++ kind` and calls
`stopListeningAndRecording`. -/
def handleError (kind : String) (s : AppState) : AppState :=
  if kind = "no-speech" then s
  else
    stopListeningAndRecording
      { s with error := some ("Speech recognition error: " ++ kind) }

/-- `handleEnd` (src/index.tsx:130-146): if `intentionalStop` is set,
finalize as a stop; else while listening in continuous mode attempt
`recognition.start()` — a bare restart that touches no component state
(`restartOk = true`), falling back to a stop if it throws; otherwise
finalize as a stop. -/
def handleEnd (restartOk : Bool) (s : AppState) : AppState :=
  if s.intentionalStop then stopListeningAndRecording s
  else if s.isListening = true ∧ s.mode = Mode.continuous then
    if restartOk then s else stopListeningAndRecording s
  else stopListeningAndRecording s

/-- `handleListenToggle` (src/index.tsx:274-281): while listening, set the
`intentionalStop` ref and stop; otherwise start (with the environment
outcome of the start attempt). -/
def handleListenToggle (outcome : StartOutcome) (s : AppState) : AppState :=
  if s.isListening then
    stopListeningAndRecording { s with intentionalStop := true }
  else startListeningAndRecording s outcome

/-- One environment event driving the orchestrator. -/
inductive Event where
  /-- The mic button (src/index.tsx:398), with the outcome the environment
  gives a start attempt. -/
  | toggle (outcome : StartOutcome)
  /-- A recognition `result` event whose final transcript is `raw`, with
  `now` the `Date.now()` value at entry creation. -/
  | finalResult (now : Nat) (raw : String)
  /-- Settlement of the translation promise issued for entry `entryId`;
  `modeAtCreation` is the mode the closure captured. -/
  | resolve (entryId : Nat) (modeAtCreation : Mode) (outcome : Option String)
  /-- A recognition `error` event of the given kind. -/
  | recError (kind : String)
  /-- A recognition `end` event; `restartOk` is whether a restart attempt
  would succeed. -/
  | sessionEnd (restartOk : Bool)
  /-- The language-direction button (src/index.tsx:375), disabled while
  listening. -/
  | langFlip
  /-- The mode switch (src/index.tsx:413), disabled while listening. -/
  | modeFlip
deriving DecidableEq, Repr

/-- Dispatch one event to its source handler.  `ready` is whether
`ai.current` was initialized (API key present).  The language and mode
buttons carry `disabled={isListening}`, so they act only while idle. -/
def step (ready : Bool) (s : AppState) : Event → AppState
  | .toggle outcome => handleListenToggle outcome s
  | .finalResult now raw => handleResultFinal now ready raw s
  | .resolve entryId m outcome => handleTranslationResolve entryId m outcome s
  | .recError kind => handleError kind s
  | .sessionEnd restartOk => handleEnd restartOk s
  | .langFlip =>
      if s.isListening then s
      else { s with currentLang := s.currentLang.toggle }
  | .modeFlip =>
      if s.isListening then s
      else { s with mode := s.mode.flip }

/-- Run a sequence of events from a state. -/
def run (ready : Bool) (s : AppState) (evs : List Event) : AppState :=
  evs.foldl (step ready) s

/-- The translation requests issued along a run, in issue order, each
tagged with the id of the entry it was issued for. -/
def runRequests (ready : Bool) (s : AppState) : List Event → List Nat
  | [] => []
  | e :: evs =>
      (match e with
       | .finalResult now raw => translationRequests now ready raw
       | _ => []) ++ runRequests ready (step ready s e) evs

/-- States reachable from the initial component state under some event
sequence. -/
inductive Reachable (ready : Bool) : AppState → Prop where
  | init : Reachable ready initialState
  | next {s : AppState} (e : Event) :
      Reachable ready s → Reachable ready (step ready s e)

/-- Events resolving pending translations whose closures captured
turn-taking mode: each pair gives the entry id and the settlement
(`some` translated text, or `none` for a rejected promise). -/
def resolveEvents (l : List (Nat × Option String)) : List Event :=
  l.map fun p => Event.resolve p.1 Mode.turnTaking p.2

/-- Number of successful settlements in a list of translation
settlements. -/
def successCount (l : List (Nat × Option String)) : Nat :=
  (l.filter fun p => p.2.isSome).length

/-- The identity-relevant part of a transcript entry: its id and original
text, which no update after creation may change. -/
def entryKey (e : LogEntry) : Nat × String := (e.id, e.original)

/-- The `(Date.now, trimmed text)` pairs of the final-result events of a
trace, in arrival order. -/
def finalsOf : List Event → List (Nat × String)
  | [] => []
  | .finalResult now raw :: evs => (now, jsTrim raw) :: finalsOf evs
  | _ :: evs => finalsOf evs

/-- Events allowed in a transcript-growth trace: final results whose
trimmed text is non-empty, and translation settlements. -/
def GoodEvent : Event → Prop
  | .finalResult _ raw => jsTrim raw ≠ ""
  | .resolve _ _ _ => True
  | _ => False

instance (e : Event) : Decidable (GoodEvent e) := by
  cases e <;> simp only [GoodEvent] <;> infer_instance

/-- C1: entry ids come from `Date.now()` (src/index.tsx:167), so two
`onFinal` events processed during the same clock millisecond create two
distinct LogEntries with the same id: after a successful start, two final
results both read `Date.now() = 5` and the log holds two different entries
(originals `"A"` and `"B"`) both with id `5`, refuting uniqueness and
strict increase of ids in creation order. -/
theorem C1_date_now_id_collision :
    (run true initialState
        [.toggle .ok, .finalResult 5 "A", .finalResult 5 "B"]).log.map
        LogEntry.id = [5, 5] ∧
    (run true initialState
        [.toggle .ok, .finalResult 5 "A", .finalResult 5 "B"]).log.map
        LogEntry.original = ["A", "B"] := by
  decide

/-- C2 counterexample: with the same-millisecond id collision of
`C1_date_now_id_collision`, the by-id update of src/index.tsx:190-192
matches both entries, so submitting `"A"` then `"B"` while Listening and
resolving B's translation (`"transB"`) first and A's (`"transA"`) second
leaves the entry created for `"B"` holding A's translation — the claim's
never-swapped guarantee fails at this concrete input. -/
theorem C2_same_tick_updates_both_entries :
    (run true initialState
        [.toggle .ok, .finalResult 5 "A", .finalResult 5 "B",
         .resolve 5 .turnTaking (some "transB"),
         .resolve 5 .turnTaking (some "transA")]).log.map
        LogEntry.original = ["A", "B"] ∧
    (run true initialState
        [.toggle .ok, .finalResult 5 "A", .finalResult 5 "B",
         .resolve 5 .turnTaking (some "transB"),
         .resolve 5 .turnTaking (some "transA")]).log.map
        LogEntry.translated = [some "transA", some "transA"] := by
  decide

/-- C3: the `catch` of `startListeningAndRecording` (src/index.tsx:256-259)
only sets the error banner.  When `getUserMedia` succeeds but
`recognition.start()` then throws, the acquired stream is never released:
one acquisition, zero releases, and the session is not Listening.  A second
(successful) start then overwrites `streamRef` (src/index.tsx:213), so two
acquisitions are live with still zero releases — both the exactly-once
release of that exit path and the acquire/release balance fail. -/
theorem C3_start_failure_leaks_stream :
    ((run true initialState [.toggle .recognitionStartFailed]).acquires = 1 ∧
     (run true initialState [.toggle .recognitionStartFailed]).releases = 0 ∧
     (run true initialState [.toggle .recognitionStartFailed]).streamLive = true ∧
     (run true initialState [.toggle .recognitionStartFailed]).isListening = false) ∧
    ((run true initialState
        [.toggle .recognitionStartFailed, .toggle .ok]).acquires = 2 ∧
     (run true initialState
        [.toggle .recognitionStartFailed, .toggle .ok]).releases = 0) := by
  decide

/-- C4 counterexample: `handleResult` passes the trimmed transcript and
`handleTranslation` returns on empty text (src/index.tsx:117, 164), so a
final result consisting of one space, received while Listening, appends no
LogEntry at all: the log stays empty instead of growing by one. -/
theorem C4_whitespace_final_appends_nothing :
    (run true initialState [.toggle .ok]).isListening = true ∧
    (run true initialState [.toggle .ok, .finalResult 5 " "]).log = [] ∧
    runRequests true initialState [.toggle .ok, .finalResult 5 " "] = [] := by
  decide

/-- C7 counterexample: a failed translation runs the `catch` of
`handleTranslation`, whose first action is `setError("Failed to translate
text.")` (src/index.tsx:200) — the global error banner of
src/index.tsx:371.  Before the failure the error banner is clear; after it,
it holds that message, refuting "no global user-visible error message is
set by a translation failure". -/
theorem C7_translation_failure_sets_global_error :
    (run true initialState [.toggle .ok, .finalResult 5 "A"]).error = none ∧
    (run true initialState
        [.toggle .ok, .finalResult 5 "A",
         .resolve 5 .turnTaking none]).error =
      some "Failed to translate text." := by
  decide

/-- Flipping the translation direction twice returns to the starting
language. -/
theorem Language.toggle_toggle (L : Language) : L.toggle.toggle = L := by
  cases L <;> rfl

/-- A translation settlement never changes the ids or original texts of the
log, nor their order. -/
theorem resolve_log_keys (i : Nat) (m : Mode) (oc : Option String)
    (s : AppState) :
    (handleTranslationResolve i m oc s).log.map entryKey = s.log.map entryKey := by
  cases oc with
  | some tr =>
    by_cases hm : m = Mode.turnTaking <;>
      · simp [handleTranslationResolve, hm]
        intro a _
        by_cases h : a.id = i <;> simp [h, entryKey]
  | none =>
    simp [handleTranslationResolve]
    intro a _
    by_cases h : a.id = i <;> simp [h, entryKey]

/-- `stopListeningAndRecording` always leaves the `intentionalStop` ref
cleared (src/index.tsx:270). -/
theorem stop_intentionalStop (s : AppState) :
    (stopListeningAndRecording s).intentionalStop = false := rfl

/-- `stopListeningAndRecording` always leaves `isListening` false
(src/index.tsx:269). -/
theorem stop_isListening (s : AppState) :
    (stopListeningAndRecording s).isListening = false := rfl

/-- In every reachable state the `intentionalStop` ref is clear: every
handler that sets it (the toggle's stop branch, src/index.tsx:276) resets
it before returning, via `stopListeningAndRecording`. -/
theorem reachable_intentionalStop_false (b : Bool) (s : AppState)
    (h : Reachable b s) : s.intentionalStop = false := by
  induction h with
  | init => rfl
  | next e hs ih =>
    rename_i s1
    cases e with
    | toggle outcome =>
      by_cases hl : s1.isListening <;>
        cases outcome <;>
          simp [step, handleListenToggle, hl, startListeningAndRecording,
            stop_intentionalStop, ih]
    | finalResult now raw =>
      cases b <;>
        by_cases hr : raw = "" <;>
          by_cases ht : jsTrim raw = "" <;>
            simp [step, handleResultFinal, handleTranslationCreate, hr, ht, ih]
    | resolve i m oc =>
      cases oc with
      | some tr =>
        by_cases hm : m = Mode.turnTaking <;>
          simp [step, handleTranslationResolve, hm, ih]
      | none => simp [step, handleTranslationResolve, ih]
    | recError kind =>
      by_cases hk : kind = "no-speech" <;>
        simp [step, handleError, hk, stop_intentionalStop, ih]
    | sessionEnd restartOk =>
      simp only [step, handleEnd, ih]
      by_cases hc : s1.isListening = true ∧ s1.mode = Mode.continuous <;>
        cases restartOk <;> simp [hc, stop_intentionalStop, ih]
    | langFlip => by_cases hl : s1.isListening <;> simp [step, hl, ih]
    | modeFlip => by_cases hl : s1.isListening <;> simp [step, hl, ih]

/-- C7 (amended): a failed translation is scoped to the transcript and the
session — it leaves `isListening`, the recorder, the recordings and the
language unchanged and only marks the matching log entries with the
`"Translation failed."` placeholder — but it does set the global error
banner to `"Failed to translate text."`. -/
theorem C7_failure_scoped_to_entry_but_sets_banner (entryId : Nat) (m : Mode)
    (s : AppState) :
    (handleTranslationResolve entryId m none s).isListening = s.isListening ∧
    (handleTranslationResolve entryId m none s).recorderRecording =
      s.recorderRecording ∧
    (handleTranslationResolve entryId m none s).recordings = s.recordings ∧
    (handleTranslationResolve entryId m none s).currentLang = s.currentLang ∧
    (handleTranslationResolve entryId m none s).log =
      s.log.map (fun e =>
        if e.id = entryId then { e with translated := some "Translation failed." }
        else e) ∧
    (handleTranslationResolve entryId m none s).error =
      some "Failed to translate text." := by
  simp [handleTranslationResolve]

/-- C8: `handleError` swallows `"no-speech"` — the state is untouched, so
nothing is surfaced and the session is not terminated — while every other
kind sets the banner to `"Speech recognition error: " ++ kind` (a message
containing the kind), stops listening, and finalizes a recorder that was
recording into exactly one new Recording. -/
theorem C8_recognition_error_policy (kind : String) (s : AppState) :
    (kind = "no-speech" → handleError kind s = s) ∧
    (kind ≠ "no-speech" →
      (handleError kind s).error =
        some ("Speech recognition error: " ++ kind) ∧
      (handleError kind s).isListening = false ∧
      (s.recorderRecording = true →
        (handleError kind s).recorderRecording = false ∧
        (handleError kind s).recordings = s.recordings + 1)) := by
  constructor
  · intro hk; simp [handleError, hk]
  · intro hk
    refine ⟨?_, ?_, fun hr => ⟨?_, ?_⟩⟩
    · by_cases hr2 : s.recorderRecording <;>
        simp [handleError, hk, stopListeningAndRecording, hr2]
    · by_cases hr2 : s.recorderRecording <;>
        simp [handleError, hk, stopListeningAndRecording, hr2]
    · simp [handleError, hk, stopListeningAndRecording, hr]
    · simp [handleError, hk, stopListeningAndRecording, hr]

/-- Witness for C8 at a live session: `"no-speech"` leaves the state
unchanged, while a `"network"` error surfaces its kind, stops listening
and finalizes one Recording. -/
theorem C8_recognition_error_policy_witness :
    (handleError "no-speech" (run true initialState [.toggle .ok]) =
      run true initialState [.toggle .ok]) ∧
    (handleError "network" (run true initialState [.toggle .ok])).error =
      some "Speech recognition error: network" ∧
    (handleError "network" (run true initialState [.toggle .ok])).isListening
      = false ∧
    (handleError "network" (run true initialState [.toggle .ok])).recordings
      = 1 := by
  refine ⟨(C8_recognition_error_policy "no-speech" _).1 rfl, ?_, ?_, ?_⟩
  · exact ((C8_recognition_error_policy "network" _).2 (by decide)).1
  · exact ((C8_recognition_error_policy "network" _).2 (by decide)).2.1
  · exact (((C8_recognition_error_policy "network" _).2 (by decide)).2.2
      (by decide)).2

/-- C9: invoking `stopListeningAndRecording` while Idle (not listening,
recorder not in the `"recording"` state) produces no new Recording and
leaves the error banner untouched, because the recorder stop — the only
Recording-producing action — is guarded by the `"recording"` state check
(src/index.tsx:266); and from any state `s2` a second stop after a first
stop adds no duplicate Recording and no error. -/
theorem C9_stop_while_idle_noop (s s2 : AppState)
    (hL : s.isListening = false) (hR : s.recorderRecording = false) :
    (stopListeningAndRecording s).recordings = s.recordings ∧
    (stopListeningAndRecording s).error = s.error ∧
    (stopListeningAndRecording (stopListeningAndRecording s2)).recordings =
      (stopListeningAndRecording s2).recordings ∧
    (stopListeningAndRecording (stopListeningAndRecording s2)).error =
      (stopListeningAndRecording s2).error := by
  refine ⟨?_, ?_, ?_, ?_⟩
  · simp [stopListeningAndRecording, hR]
  · simp [stopListeningAndRecording, hR]
  · by_cases h2 : s2.recorderRecording <;>
      simp [stopListeningAndRecording, h2]
  · by_cases h2 : s2.recorderRecording <;>
      simp [stopListeningAndRecording, h2]

/-- Witness for C9 at the initial (Idle) state, with the double-stop part
taken from a live session state. -/
theorem C9_stop_while_idle_noop_witness :
    (stopListeningAndRecording initialState).recordings =
      initialState.recordings ∧
    (stopListeningAndRecording initialState).error = initialState.error ∧
    (stopListeningAndRecording
        (stopListeningAndRecording (run true initialState [.toggle .ok]))).recordings =
      (stopListeningAndRecording (run true initialState [.toggle .ok])).recordings ∧
    (stopListeningAndRecording
        (stopListeningAndRecording (run true initialState [.toggle .ok]))).error =
      (stopListeningAndRecording (run true initialState [.toggle .ok])).error :=
  C9_stop_while_idle_noop initialState (run true initialState [.toggle .ok])
    (by decide) (by decide)

/-- C6: `handleEnd` while Listening (src/index.tsx:130-146).  With the
`intentionalStop` ref clear and continuous mode, a successful
`recognition.start()` restart leaves the state exactly as it was — still
listening, same `recognition.lang` as the ended session, recorder still
accumulating, no Recording finalized.  With the ref set, or in turn-taking
mode, the handler finalizes as a stop: `stopListeningAndRecording` runs,
listening ends, and a recorder that was recording is finalized into one
Recording. -/
theorem C6_session_end_policy (s : AppState) (r : Bool)
    (hL : s.isListening = true) :
    (s.intentionalStop = false → s.mode = Mode.continuous →
      handleEnd true s = s ∧
      (handleEnd true s).isListening = true ∧
      (handleEnd true s).recognitionLang = s.recognitionLang ∧
      (handleEnd true s).recorderRecording = s.recorderRecording ∧
      (handleEnd true s).recordings = s.recordings) ∧
    (s.intentionalStop = true →
      handleEnd r s = stopListeningAndRecording s ∧
      (handleEnd r s).isListening = false ∧
      (s.recorderRecording = true →
        (handleEnd r s).recordings = s.recordings + 1)) ∧
    (s.intentionalStop = false → s.mode = Mode.turnTaking →
      handleEnd r s = stopListeningAndRecording s ∧
      (handleEnd r s).isListening = false ∧
      (s.recorderRecording = true →
        (handleEnd r s).recordings = s.recordings + 1)) := by
  refine ⟨fun hi hm => ?_, fun hi => ?_, fun hi hm => ?_⟩
  · simp [handleEnd, hi, hm, hL]
  · refine ⟨by simp [handleEnd, hi], by simp [handleEnd, hi, stop_isListening],
      fun hr => ?_⟩
    simp [handleEnd, hi, stopListeningAndRecording, hr]
  · have hm2 : ¬(s.isListening = true ∧ s.mode = Mode.continuous) := by
      simp [hm]
    refine ⟨by simp [handleEnd, hi, hm2],
      by simp [handleEnd, hi, hm2, stop_isListening], fun hr => ?_⟩
    simp [handleEnd, hi, hm2, stopListeningAndRecording, hr]

/-- Witness for C6: in a live continuous-mode session the engine-initiated
end is a pure restart, and in a live turn-taking session it finalizes the
session's recorder into one Recording and stops listening. -/
theorem C6_session_end_policy_witness :
    (handleEnd true (run true initialState [.modeFlip, .toggle .ok]) =
      run true initialState [.modeFlip, .toggle .ok]) ∧
    (handleEnd true (run true initialState [.toggle .ok])).isListening
      = false ∧
    (handleEnd true (run true initialState [.toggle .ok])).recordings = 1 := by
  refine ⟨((C6_session_end_policy _ true (by decide)).1 (by decide)
    (by decide)).1, ?_, ?_⟩
  · exact ((C6_session_end_policy (run true initialState [.toggle .ok]) true
      (by decide)).2.2 (by decide) (by decide)).2.1
  · exact ((C6_session_end_policy (run true initialState [.toggle .ok]) true
      (by decide)).2.2 (by decide) (by decide)).2.2 (by decide)

/-- C5: resolving any interleaving of successful and failed translations
whose closures captured turn-taking mode toggles `currentLang` exactly once
per success (src/index.tsx:194-196) and never on failure, so the final
language depends only on the parity of the success count: even — the
starting language; odd — the other one. -/
theorem C5_turn_taking_parity (s : AppState) (l : List (Nat × Option String))
    (hm : s.mode = Mode.turnTaking) :
    (run true s (resolveEvents l)).currentLang =
      if successCount l % 2 = 0 then s.currentLang
      else s.currentLang.toggle := by
  induction l generalizing s with
  | nil => simp [resolveEvents, run, successCount]
  | cons p t ih =>
    obtain ⟨i, oc⟩ := p
    have hrun : run true s (resolveEvents ((i, oc) :: t)) =
        run true (step true s (.resolve i .turnTaking oc)) (resolveEvents t) := rfl
    cases oc with
    | none =>
      have hs2 : (step true s (.resolve i .turnTaking none)).currentLang =
          s.currentLang := by
        simp [step, handleTranslationResolve]
      have hm2 : (step true s (.resolve i .turnTaking none)).mode = s.mode := by
        simp [step, handleTranslationResolve]
      have hsc : successCount ((i, (none : Option String)) :: t) =
          successCount t := by
        simp [successCount]
      rw [hrun, ih _ (by rw [hm2, hm]), hs2, hsc]
    | some tr =>
      have hs2 : (step true s (.resolve i .turnTaking (some tr))).currentLang =
          s.currentLang.toggle := by
        simp [step, handleTranslationResolve]
      have hm2 : (step true s (.resolve i .turnTaking (some tr))).mode =
          s.mode := by
        simp [step, handleTranslationResolve]
      have hsc : successCount ((i, some tr) :: t) = successCount t + 1 := by
        simp [successCount]
      rw [hrun, ih _ (by rw [hm2, hm]), hs2, hsc]
      rcases Nat.mod_two_eq_zero_or_one (successCount t) with h | h
      · have h1 : (successCount t + 1) % 2 = 1 := by omega
        simp [h, h1]
      · have h1 : (successCount t + 1) % 2 = 0 := by omega
        simp [h, h1, Language.toggle_toggle]

/-- Witness for C5: from the initial turn-taking state, two successes with
a failure between them return the language to `ja-JP`, and a single
success flips it to `zh-TW`. -/
theorem C5_turn_taking_parity_witness :
    (run true initialState
        (resolveEvents [(1, some "x"), (2, none), (3, some "y")])).currentLang =
      (if successCount [(1, some "x"), (2, none), (3, some "y")] % 2 = 0 then
        initialState.currentLang
      else initialState.currentLang.toggle) :=
  C5_turn_taking_parity initialState [(1, some "x"), (2, none), (3, some "y")]
    (by decide)

/-- C10: in every reachable state the intentional-stop flag is clear
whenever no session is listening (indeed always, between handler runs), and
the state produced by any event that begins a session — takes `isListening`
from `false` to `true` — has the flag clear, so no session ever starts with
a stale intentional-stop request pending. -/
theorem C10_no_stale_intentional_stop (b : Bool) (s : AppState) (e : Event)
    (h : Reachable b s) :
    (s.isListening = false → s.intentionalStop = false) ∧
    ((step b s e).isListening = true → s.isListening = false →
      (step b s e).intentionalStop = false) :=
  ⟨fun _ => reachable_intentionalStop_false b s h,
   fun _ _ => reachable_intentionalStop_false b _ (h.next e)⟩

/-- Witness for C10: the very first successful start begins listening with
the intentional-stop flag clear. -/
theorem C10_no_stale_intentional_stop_witness :
    (step true initialState (Event.toggle StartOutcome.ok)).isListening
      = true ∧
    (step true initialState (Event.toggle StartOutcome.ok)).intentionalStop
      = false :=
  ⟨by decide,
   (C10_no_stale_intentional_stop true initialState
      (Event.toggle StartOutcome.ok) Reachable.init).2 (by decide) (by decide)⟩

/-- C2 (amended): provided the two entries are created at distinct
`Date.now()` instants — so their ids differ — submitting text `A` then `B`
while Listening and resolving B's translation first and A's second leaves
entry A holding A's translation and entry B holding B's, never swapped,
whatever modes the two resolution closures captured: each settlement
updates exactly the entry whose id it was issued for
(src/index.tsx:190-192). -/
theorem C2_out_of_order_updates_by_id
    (t1 t2 : Nat) (A B trA trB : String) (m1 m2 : Mode)
    (ht : t1 ≠ t2) (hA : jsTrim A ≠ "") (hB : jsTrim B ≠ "") :
    (run true initialState
        [.toggle .ok, .finalResult t1 A, .finalResult t2 B,
         .resolve t2 m2 (some trB), .resolve t1 m1 (some trA)]).log =
      [{ id := t1, original := jsTrim A, translated := some trA,
         lang := Language.jaJP },
       { id := t2, original := jsTrim B, translated := some trB,
         lang := Language.jaJP }] := by
  have hA0 : A ≠ "" := fun h => hA (by rw [h]; rfl)
  have hB0 : B ≠ "" := fun h => hB (by rw [h]; rfl)
  have ht2 : t2 ≠ t1 := Ne.symm ht
  cases m1 <;> cases m2 <;>
    simp [run, step, handleListenToggle, startListeningAndRecording,
      handleResultFinal, handleTranslationCreate, handleTranslationResolve,
      initialState, hA0, hB0, hA, hB, ht, ht2]

/-- Witness for C2 (amended) at distinct creation instants 1 and 2. -/
theorem C2_out_of_order_updates_by_id_witness :
    (run true initialState
        [.toggle .ok, .finalResult 1 "A", .finalResult 2 "B",
         .resolve 2 .turnTaking (some "transB"),
         .resolve 1 .turnTaking (some "transA")]).log =
      [{ id := 1, original := jsTrim "A", translated := some "transA",
         lang := Language.jaJP },
       { id := 2, original := jsTrim "B", translated := some "transB",
         lang := Language.jaJP }] :=
  C2_out_of_order_updates_by_id 1 2 "A" "B" "transA" "transB"
    .turnTaking .turnTaking (by decide) (by decide) (by decide)

/-- C4 (amended): along any trace of final results and translation
settlements from any state, with the translation client initialized and
every final result's trimmed text non-empty, the log grows by exactly one
appended entry per final result; its id/original sequence is the prior
sequence extended by the arrivals in arrival order, independent of how the
settlements interleave; and exactly one translation request is issued per
final result, tagged with its entry's id.  Final results whose text trims
to empty (excluded by `GoodEvent`) append nothing and issue no request, as
`C4_whitespace_final_appends_nothing` shows. -/
theorem C4_entries_in_arrival_order (s : AppState) (evs : List Event)
    (h : ∀ e ∈ evs, GoodEvent e) :
    (run true s evs).log.map entryKey = s.log.map entryKey ++ finalsOf evs ∧
    (run true s evs).log.length = s.log.length + (finalsOf evs).length ∧
    runRequests true s evs = (finalsOf evs).map Prod.fst := by
  induction evs generalizing s with
  | nil => simp [run, runRequests, finalsOf]
  | cons e t ih =>
    have he := h e (List.mem_cons_self e t)
    have hr : ∀ e2 ∈ t, GoodEvent e2 := fun e2 h2 => h e2 (List.mem_cons_of_mem e h2)
    cases e with
    | finalResult now raw =>
      have htrim : jsTrim raw ≠ "" := he
      have hraw : raw ≠ "" := fun hh => htrim (by rw [hh]; rfl)
      have hstep : step true s (.finalResult now raw) =
          { s with log := s.log ++
              [{ id := now, original := jsTrim raw, translated := none,
                 lang := s.currentLang }] } := by
        simp [step, handleResultFinal, handleTranslationCreate, hraw, htrim]
      have hreq : translationRequests now true raw = [now] := by
        simp [translationRequests, hraw, htrim]
      obtain ⟨ih1, ih2, ih3⟩ := ih (step true s (.finalResult now raw)) hr
      refine ⟨?_, ?_, ?_⟩
      · show (run true (step true s (.finalResult now raw)) t).log.map entryKey
          = s.log.map entryKey ++ finalsOf (.finalResult now raw :: t)
        rw [ih1, hstep]
        simp [finalsOf, entryKey]
      · show (run true (step true s (.finalResult now raw)) t).log.length
          = s.log.length + (finalsOf (.finalResult now raw :: t)).length
        rw [ih2, hstep]
        simp [finalsOf]
        omega
      · show translationRequests now true raw ++
            runRequests true (step true s (.finalResult now raw)) t =
            ((now, jsTrim raw) :: finalsOf t).map Prod.fst
        rw [hreq, ih3]
        rfl
    | resolve i m oc =>
      obtain ⟨ih1, ih2, ih3⟩ := ih (handleTranslationResolve i m oc s) hr
      have hkeys := resolve_log_keys i m oc s
      have hlen : (handleTranslationResolve i m oc s).log.length =
          s.log.length := by
        have := congrArg List.length hkeys
        simpa using this
      refine ⟨?_, ?_, ?_⟩
      · show (run true (handleTranslationResolve i m oc s) t).log.map entryKey =
            s.log.map entryKey ++ finalsOf (.resolve i m oc :: t)
        rw [ih1, hkeys]
        rfl
      · show (run true (handleTranslationResolve i m oc s) t).log.length =
            s.log.length + (finalsOf (.resolve i m oc :: t)).length
        rw [ih2, hlen]
        rfl
      · show ([] : List Nat) ++ runRequests true (handleTranslationResolve i m oc s) t =
            (finalsOf (.resolve i m oc :: t)).map Prod.fst
        rw [List.nil_append, ih3]
        rfl
    | toggle outcome => exact absurd he id
    | recError kind => exact absurd he id
    | sessionEnd restartOk => exact absurd he id
    | langFlip => exact absurd he id
    | modeFlip => exact absurd he id

/-- Witness for C4 (amended): two final results with a settlement between
them grow the log by exactly those two entries, in arrival order, with one
request each. -/
theorem C4_entries_in_arrival_order_witness :
    (run true initialState
        [.finalResult 1 "A", .resolve 1 .turnTaking (some "x"),
         .finalResult 2 "B"]).log.map entryKey =
      initialState.log.map entryKey ++
        finalsOf [.finalResult 1 "A", .resolve 1 .turnTaking (some "x"),
          .finalResult 2 "B"] ∧
    (run true initialState
        [.finalResult 1 "A", .resolve 1 .turnTaking (some "x"),
         .finalResult 2 "B"]).log.length =
      initialState.log.length +
        (finalsOf [.finalResult 1 "A", .resolve 1 .turnTaking (some "x"),
          .finalResult 2 "B"]).length ∧
    runRequests true initialState
        [.finalResult 1 "A", .resolve 1 .turnTaking (some "x"),
         .finalResult 2 "B"] =
      (finalsOf [.finalResult 1 "A", .resolve 1 .turnTaking (some "x"),
        .finalResult 2 "B"]).map Prod.fst :=
  C4_entries_in_arrival_order initialState
    [.finalResult 1 "A", .resolve 1 .turnTaking (some "x"),
     .finalResult 2 "B"] (by decide)

end RTTrans
